import Mathlib

set_option maxRecDepth 8000

/-!
# Verification of the product CRUD API (ecommerce-backend-express)

Shallow embedding of the repository's request pipeline:

* `productSchema.safeParse` — `src/lib/utils/validation.ts` (zod object schema,
  per-field checks, all issues collected);
* `connectToDB` — `src/lib/database/database.ts`;
* `listGET` / `productsPOST` — `src/app/api/products/route.ts`;
* `productGET` / `productPUT` / `productDELETE` — `src/app/api/products/[id]/route.ts`;
* `dashboardGET` — `src/app/api/products/dashboard/route.ts`.

Handlers are modelled as pure functions of a `World` (database state plus
fault switches) returning the HTTP `Response` together with the ordered trace
of external effects (`Event`s) the handler performed: connection
establishment, body parsing, and repository operations.
-/

/-- JSON values: the request/response currency of the API. JSON numbers are
modelled as rationals; object keys are kept in insertion order. -/
inductive Json where
  | null : Json
  | bool (b : Bool) : Json
  | num (q : ℚ) : Json
  | str (s : String) : Json
  | arr (elems : List Json) : Json
  | obj (fields : List (String × Json)) : Json

/-- Property access `payload[key]`: `none` models JS `undefined` (both a
missing key and a non-object receiver). An explicit JSON `null` value is
`some Json.null`, which is distinct from `undefined`, as in JS. -/
def Json.field? : Json → String → Option Json
  | .obj fs, k => fs.lookup k
  | _, _ => none

/-- One zod issue: the path of the offending field and its message. -/
structure Issue where
  path : List String
  message : String
deriving DecidableEq

/-- A validated product payload (the `parsedBody.data` of a successful
`productSchema.safeParse`). Store metadata (`_id`, timestamps) is assigned by
the store and not part of the validated payload. -/
structure Product where
  title : String
  description : String
  category : String
  imageUrl : String
  price : ℚ
  creator : String
deriving DecidableEq

/-- The four category enum values of `z.enum([...])` in `validation.ts`,
mirrored by the mongoose model. -/
def categoryValues : List String := ["men", "women", "electronics", "jewelry"]

/-- Split a character list at the first occurrence of `://`, returning the
part before it and the part after it. -/
def splitScheme : List Char → Option (List Char × List Char)
  | [] => none
  | ':' :: '/' :: '/' :: rest => some ([], rest)
  | c :: rest =>
      match splitScheme rest with
      | some (pre, post) => some (c :: pre, post)
      | none => none

/-- Modelled from the spec: zod's `.url()` check delegates to the host
platform's URL parser (`new URL(...)`), which is not part of this repository;
the spec requires only that `imageUrl` "must parse as a URL". Modelled as a
nonempty alphabetic scheme, the literal `://`, and a nonempty remainder.
The empty string is not a URL. -/
def isValidUrl (s : String) : Bool :=
  match splitScheme s.data with
  | some (scheme, rest) => (!scheme.isEmpty) && scheme.all Char.isAlpha && (!rest.isEmpty)
  | none => false

/-- Modelled from the spec: the handlers delegate identifier checking to
`mongoose.Types.ObjectId.isValid`, an external library function whose source
is not part of this repository; the spec fixes the identifier format as
24-character hexadecimal. -/
def isValidId (s : String) : Bool :=
  s.length == 24 && s.data.all (fun c =>
    c.isDigit || ('a' ≤ c && c ≤ 'f') || ('A' ≤ c && c ≤ 'F'))

/-! ## The zod schema `productSchema` (validation.ts)

Each field parser returns the list of issues it raises (all with that field's
path) together with the parsed value on success, mirroring how zod runs every
check of every field and collects all issues. A missing key (JS `undefined`)
raises the `Required` invalid-type issue. -/

/-- `z.string().min(1, msg)`: a string whose length is at least 1. -/
def parseStringField (name msg : String) (v : Option Json) :
    List Issue × Option String :=
  match v with
  | none => ([⟨[name], "Required"⟩], none)
  | some (.str s) =>
      if 1 ≤ s.length then ([], some s) else ([⟨[name], msg⟩], none)
  | some _ => ([⟨[name], "Expected string"⟩], none)

/-- `z.enum(["men", "women", "electronics", "jewelry"])`. -/
def parseCategory (v : Option Json) : List Issue × Option String :=
  match v with
  | none => ([⟨["category"], "Required"⟩], none)
  | some (.str s) =>
      if categoryValues.contains s then ([], some s)
      else ([⟨["category"], "Invalid enum value"⟩], none)
  | some _ => ([⟨["category"], "Expected string"⟩], none)

/-- `z.string().url().min(1, msg)`: zod runs both checks on a string input, so
the empty string raises two issues (invalid url, then the min-length
message). -/
def parseUrlField (name msg : String) (v : Option Json) :
    List Issue × Option String :=
  match v with
  | none => ([⟨[name], "Required"⟩], none)
  | some (.str s) =>
      let issues :=
        (if isValidUrl s then [] else [⟨[name], "Invalid url"⟩]) ++
        (if 1 ≤ s.length then [] else [⟨[name], msg⟩])
      (issues, if issues.isEmpty then some s else none)
  | some _ => ([⟨[name], "Expected string"⟩], none)

/-- `z.number().min(1, msg)`: a number that is at least 1. No coercion:
numeric strings are not numbers. -/
def parseNumberField (name msg : String) (v : Option Json) :
    List Issue × Option ℚ :=
  match v with
  | none => ([⟨[name], "Required"⟩], none)
  | some (.num q) => if 1 ≤ q then ([], some q) else ([⟨[name], msg⟩], none)
  | some _ => ([⟨[name], "Expected number"⟩], none)

/-- Field parser of `title: z.string().min(1, "Title is required")`. -/
def titleResult (fs : List (String × Json)) : List Issue × Option String :=
  parseStringField "title" "Title is required" (fs.lookup "title")

/-- Field parser of `description: z.string().min(1, "Description is required")`. -/
def descriptionResult (fs : List (String × Json)) : List Issue × Option String :=
  parseStringField "description" "Description is required" (fs.lookup "description")

/-- Field parser of `category: z.enum([...])`. -/
def categoryResult (fs : List (String × Json)) : List Issue × Option String :=
  parseCategory (fs.lookup "category")

/-- Field parser of `imageUrl: z.string().url().min(1, "Image URL is required")`. -/
def imageUrlResult (fs : List (String × Json)) : List Issue × Option String :=
  parseUrlField "imageUrl" "Image URL is required" (fs.lookup "imageUrl")

/-- Field parser of `price: z.number().min(1, "Price is required")`. -/
def priceResult (fs : List (String × Json)) : List Issue × Option ℚ :=
  parseNumberField "price" "Price is required" (fs.lookup "price")

/-- Field parser of `creator: z.string().min(1, "Creator is required")`. -/
def creatorResult (fs : List (String × Json)) : List Issue × Option String :=
  parseStringField "creator" "Creator is required" (fs.lookup "creator")

/-- All issues of an object payload, in zod's shape order
(title, description, category, imageUrl, price, creator). -/
def productIssues (fs : List (String × Json)) : List Issue :=
  (titleResult fs).1 ++ (descriptionResult fs).1 ++ (categoryResult fs).1 ++
  (imageUrlResult fs).1 ++ (priceResult fs).1 ++ (creatorResult fs).1

/-- `productSchema.safeParse` (validation.ts): succeeds with the parsed data
when every field parses, otherwise fails with every collected issue. A
non-object payload fails with a single top-level (empty-path) issue. -/
def productSchema.safeParse (j : Json) : Except (List Issue) Product :=
  match j with
  | .obj fs =>
      match (titleResult fs).2, (descriptionResult fs).2, (categoryResult fs).2,
            (imageUrlResult fs).2, (priceResult fs).2, (creatorResult fs).2 with
      | some tv, some dv, some cv, some uv, some pv, some crv =>
          .ok ⟨tv, dv, cv, uv, pv, crv⟩
      | _, _, _, _, _, _ => .error (productIssues fs)
  | _ => .error [⟨[], "Expected object"⟩]

example :
    productSchema.safeParse (.obj [("title", .str "iphone 20"),
      ("description", .str "black iphone 16"), ("category", .str "electronics"),
      ("imageUrl", .str "https://example.com/i.png"), ("price", .num 2000),
      ("creator", .str "apple")]) =
    .ok ⟨"iphone 20", "black iphone 16", "electronics",
      "https://example.com/i.png", 2000, "apple"⟩ := by rfl

example :
    productSchema.safeParse (.obj [("title", .str "t"),
      ("description", .str "d"), ("category", .str "electronics"),
      ("imageUrl", .str ""), ("price", .num 5), ("creator", .str "c")]) =
    .error [⟨["imageUrl"], "Invalid url"⟩, ⟨["imageUrl"], "Image URL is required"⟩] := by rfl

/-! ## Effects, worlds and handlers -/

/-- One observable external effect of a handler, in the order performed:
`connect` is a `connectToDB()` call reaching `mongoose.connect`;
`parseBody` is `req.json()`; the rest are the repository operations. -/
inductive Event where
  | connect : Event
  | parseBody : Event
  | findAll (creatorFilter : Option String) : Event
  | findById (id : String) : Event
  | saveProduct (p : Product) : Event
  | updateById (id : String) (p : Product) : Event
  | deleteById (id : String) : Event
deriving DecidableEq

/-- An HTTP response: status code and JSON body (`NextResponse.json`). -/
structure Response where
  status : Nat
  body : Json

/-- The environment a request runs against: the stored documents (id paired
with its user fields), whether `mongoose.connect` succeeds, whether the
repository operations succeed, and the JSON serialization of the error the
driver throws when they do not. -/
structure World where
  products : List (String × Product)
  connectOk : Bool
  storeOk : Bool
  storeErr : Json

/-- The global mongoose connection state (`mongoose.connect` side). -/
structure ConnState where
  connected : Bool
deriving DecidableEq

/-- `connectToDB` (database.ts): unconditionally awaits
`mongoose.connect(process.env.MONGODB_URI!)` — there is no already-connected
guard in the source — then either succeeds or throws
`Error("Failed to connect to mongoDb")`. `dialOk` models whether the driver
call succeeds. The trace records the driver connect attempt. -/
def connectToDB (_currentState : ConnState) (dialOk : Bool) :
    Except String ConnState × List Event :=
  ((if dialOk then .ok ⟨true⟩ else .error "Failed to connect to mongoDb"),
   [Event.connect])

/-- Serialization of a stored/validated product by `NextResponse.json`
(store metadata such as `_id` and timestamps is outside the model). -/
def Product.toJson (p : Product) : Json :=
  .obj [("title", .str p.title), ("description", .str p.description),
        ("category", .str p.category), ("imageUrl", .str p.imageUrl),
        ("price", .num p.price), ("creator", .str p.creator)]

/-- Serialization of a product list (`Product.find` results). -/
def productsJson (ps : List Product) : Json :=
  .arr (ps.map Product.toJson)

/-- POST's mapping of a zod issue to a field error:
`{ field: issue.path[0], message: issue.message }`. When `path` is empty,
`issue.path[0]` is JS `undefined` and `JSON.stringify` drops the key. -/
def fieldErrorJson (i : Issue) : Json :=
  match i.path.head? with
  | some f => .obj [("field", .str f), ("message", .str i.message)]
  | none => .obj [("message", .str i.message)]

/-- PUT's serialization of a raw zod issue (`parseResult.error.errors`):
an object carrying the issue's path and message (the real issue object
carries further metadata; what matters is that it is an object, not a
string). -/
def issueJson (i : Issue) : Json :=
  .obj [("path", .arr (i.path.map .str)), ("message", .str i.message)]

/-- `GET /api/products` (route.ts): connect, find all, 200 with the array;
any caught error yields 500 with
`{ error: "Failed to retrieve products", details: error }` — note the caught
error itself is placed in the body. A connect failure's `Error` object
serializes to `{}`; a store failure serializes to the driver's error. -/
def listGET (w : World) : Response × List Event :=
  if w.connectOk then
    if w.storeOk then
      (⟨200, productsJson (w.products.map Prod.snd)⟩,
       [Event.connect, Event.findAll none])
    else
      (⟨500, .obj [("error", .str "Failed to retrieve products"),
                   ("details", w.storeErr)]⟩,
       [Event.connect, Event.findAll none])
  else
    (⟨500, .obj [("error", .str "Failed to retrieve products"),
                 ("details", .obj [])]⟩,
     [Event.connect])

/-- `POST /api/products` (route.ts): parse body (`none` = unparseable JSON,
i.e. `req.json()` throws), `productSchema.safeParse`, 400 with the mapped
field errors on failure, else connect and save, 201 on success. Every throw
lands in the catch; `safeParse` never throws a `ZodError`, so the catch's
`ZodError` branch is unreachable and the catch yields the generic 500. -/
def productsPOST (w : World) (body : Option Json) : Response × List Event :=
  match body with
  | none =>
      (⟨500, .obj [("error", .str "Failed to create product")]⟩,
       [Event.parseBody])
  | some b =>
      match productSchema.safeParse b with
      | .error es =>
          (⟨400, .obj [("errors", .arr (es.map fieldErrorJson))]⟩,
           [Event.parseBody])
      | .ok p =>
          if w.connectOk then
            if w.storeOk then
              (⟨201, .str "product has been created"⟩,
               [Event.parseBody, Event.connect, Event.saveProduct p])
            else
              (⟨500, .obj [("error", .str "Failed to create product")]⟩,
               [Event.parseBody, Event.connect, Event.saveProduct p])
          else
            (⟨500, .obj [("error", .str "Failed to create product")]⟩,
             [Event.parseBody, Event.connect])

/-- `GET /api/products/dashboard` (dashboard/route.ts): an empty `creator`
query parameter is rejected with 400 before any database work; an absent
parameter (`searchParams.get` returns `null`) means no filter; a non-empty
value filters by creator equality. Caught errors yield the generic 500. -/
def dashboardGET (w : World) (creator : Option String) :
    Response × List Event :=
  if creator = some "" then
    (⟨400, .obj [("error", .str "Creator is required")]⟩, [])
  else
    let q : Option String :=
      match creator with
      | some c => if c = "" then none else some c
      | none => none
    if w.connectOk then
      if w.storeOk then
        (⟨200, productsJson ((w.products.map Prod.snd).filter (fun p =>
            match q with
            | some c => p.creator == c
            | none => true))⟩,
         [Event.connect, Event.findAll q])
      else
        (⟨500, .obj [("error", .str "Failed to fetch products")]⟩,
         [Event.connect, Event.findAll q])
    else
      (⟨500, .obj [("error", .str "Failed to fetch products")]⟩,
       [Event.connect])

/-- `GET /api/products/[id]` ([id]/route.ts): inside the try, `connectToDB()`
runs FIRST, and only then is the id format checked; `findById` runs only
after the check. A connect failure is caught and yields the generic 500 —
even when the id is malformed. -/
def productGET (w : World) (id : String) : Response × List Event :=
  if w.connectOk then
    if isValidId id then
      if w.storeOk then
        match w.products.lookup id with
        | some p => (⟨200, p.toJson⟩, [Event.connect, Event.findById id])
        | none =>
            (⟨404, .str "Product not found"⟩,
             [Event.connect, Event.findById id])
      else
        (⟨500, .obj [("error", .str "Failed to fetch product")]⟩,
         [Event.connect, Event.findById id])
    else
      (⟨400, .obj [("error", .str "Invalid ID format")]⟩, [Event.connect])
  else
    (⟨500, .obj [("error", .str "Failed to fetch product")]⟩, [Event.connect])

/-- `PUT /api/products/[id]` ([id]/route.ts): the id format is checked before
the try block, before the body is parsed; then body parse, schema validation
(400 with `{ error: parseResult.error.errors }` — the raw issue array under
the `error` key), connect, update. The 200 body's `product: Product` key
holds the model class, which `JSON.stringify` drops, leaving the message. -/
def productPUT (w : World) (id : String) (body : Option Json) :
    Response × List Event :=
  if isValidId id then
    match body with
    | none =>
        (⟨500, .obj [("error", .str "Internal server error")]⟩,
         [Event.parseBody])
    | some b =>
        match productSchema.safeParse b with
        | .error es =>
            (⟨400, .obj [("error", .arr (es.map issueJson))]⟩,
             [Event.parseBody])
        | .ok p =>
            if w.connectOk then
              if w.storeOk then
                match w.products.lookup id with
                | some _ =>
                    (⟨200, .obj [("message", .str "Product updated successfully")]⟩,
                     [Event.parseBody, Event.connect, Event.updateById id p])
                | none =>
                    (⟨404, .obj [("error", .str "Product not found")]⟩,
                     [Event.parseBody, Event.connect, Event.updateById id p])
              else
                (⟨500, .obj [("error", .str "Internal server error")]⟩,
                 [Event.parseBody, Event.connect, Event.updateById id p])
            else
              (⟨500, .obj [("error", .str "Internal server error")]⟩,
               [Event.parseBody, Event.connect])
  else
    (⟨400, .obj [("error", .str "Invalid ID format")]⟩, [])

/-- `DELETE /api/products/[id]` ([id]/route.ts): a falsy (empty) id is
rejected with 400 before the try block; inside the try, `connectToDB()` runs
FIRST, then the id format check, then the delete. A connect failure is
caught and yields the generic 500 — even when the id is malformed. -/
def productDELETE (w : World) (id : String) : Response × List Event :=
  if id = "" then
    (⟨400, .obj [("error", .str "ID is required")]⟩, [])
  else if w.connectOk then
    if isValidId id then
      if w.storeOk then
        match w.products.lookup id with
        | some p =>
            (⟨200, .obj [("message", .str "Product deleted successfully"),
                         ("deletedProduct", p.toJson)]⟩,
             [Event.connect, Event.deleteById id])
        | none =>
            (⟨404, .obj [("error", .str "Product not found")]⟩,
             [Event.connect, Event.deleteById id])
      else
        (⟨500, .obj [("error", .str "Internal server error")]⟩,
         [Event.connect, Event.deleteById id])
    else
      (⟨400, .obj [("error", .str "Invalid ID format")]⟩, [Event.connect])
  else
    (⟨500, .obj [("error", .str "Internal server error")]⟩, [Event.connect])

/-! ## Claim-side predicates -/

/-- The claimed acceptance condition for `title`. -/
def titleOk (j : Json) : Prop :=
  ∃ s, j.field? "title" = some (Json.str s) ∧ s ≠ ""

/-- The claimed acceptance condition for `description`. -/
def descriptionOk (j : Json) : Prop :=
  ∃ s, j.field? "description" = some (Json.str s) ∧ s ≠ ""

/-- The claimed acceptance condition for `category`. -/
def categoryOk (j : Json) : Prop :=
  ∃ s, j.field? "category" = some (Json.str s) ∧ s ∈ categoryValues

/-- The claimed acceptance condition for `imageUrl`. -/
def imageUrlOk (j : Json) : Prop :=
  ∃ s, j.field? "imageUrl" = some (Json.str s) ∧ s ≠ "" ∧ isValidUrl s = true

/-- The claimed acceptance condition for `price`. -/
def priceOk (j : Json) : Prop :=
  ∃ q, j.field? "price" = some (Json.num q) ∧ 1 ≤ q

/-- The claimed acceptance condition for `creator`. -/
def creatorOk (j : Json) : Prop :=
  ∃ s, j.field? "creator" = some (Json.str s) ∧ s ≠ ""

/-- The claimed Schema Validator acceptance condition, as one predicate. -/
def claimAccepts (j : Json) : Prop :=
  titleOk j ∧ descriptionOk j ∧ categoryOk j ∧ imageUrlOk j ∧ priceOk j ∧
  creatorOk j

/-- The Schema Validator's per-field rules, read off a validated product:
what C5 calls "satisfies the validator's rules at the moment of write". -/
def validProduct (p : Product) : Prop :=
  p.title ≠ "" ∧ p.description ≠ "" ∧ p.category ∈ categoryValues ∧
  p.imageUrl ≠ "" ∧ isValidUrl p.imageUrl = true ∧ 1 ≤ p.price ∧
  p.creator ≠ ""

/-! ## Parser lemmas -/

theorem one_le_length_iff (s : String) : 1 ≤ s.length ↔ s ≠ "" := by
  obtain ⟨data⟩ := s
  constructor
  · intro h he
    rw [he] at h
    simp [String.length] at h
  · intro h
    cases data with
    | nil => exact absurd rfl h
    | cons c cs => simp [String.length]

theorem parseStringField_nil_iff (n m : String) (v : Option Json) :
    (parseStringField n m v).1 = [] ↔ ∃ s, v = some (Json.str s) ∧ s ≠ "" := by
  cases v with
  | none => simp [parseStringField]
  | some j =>
      cases j with
      | str s =>
          by_cases h : 1 ≤ s.length
          · simp [parseStringField, h, (one_le_length_iff s).mp h]
          · have hs : s = "" := not_not.mp (fun hne => h ((one_le_length_iff s).mpr hne))
            simp [parseStringField, h, hs]
      | null => simp [parseStringField]
      | bool b => simp [parseStringField]
      | num q => simp [parseStringField]
      | arr xs => simp [parseStringField]
      | obj fs => simp [parseStringField]

theorem parseStringField_isSome_iff (n m : String) (v : Option Json) :
    (parseStringField n m v).2.isSome ↔ (parseStringField n m v).1 = [] := by
  cases v with
  | none => simp [parseStringField]
  | some j =>
      cases j with
      | str s => by_cases h : 1 ≤ s.length <;> simp [parseStringField, h]
      | null => simp [parseStringField]
      | bool b => simp [parseStringField]
      | num q => simp [parseStringField]
      | arr xs => simp [parseStringField]
      | obj fs => simp [parseStringField]

theorem parseStringField_path (n m : String) (v : Option Json) :
    ∀ e ∈ (parseStringField n m v).1, e.path = [n] := by
  cases v with
  | none => simp [parseStringField]
  | some j =>
      cases j with
      | str s => by_cases h : 1 ≤ s.length <;> simp [parseStringField, h]
      | null => simp [parseStringField]
      | bool b => simp [parseStringField]
      | num q => simp [parseStringField]
      | arr xs => simp [parseStringField]
      | obj fs => simp [parseStringField]

theorem parseStringField_some (n m : String) (v : Option Json) (s : String)
    (h : (parseStringField n m v).2 = some s) :
    v = some (Json.str s) ∧ s ≠ "" := by
  cases v with
  | none => simp [parseStringField] at h
  | some j =>
      cases j with
      | str s' =>
          by_cases h1 : 1 ≤ s'.length
          · simp [parseStringField, h1] at h
            exact ⟨by rw [h], h ▸ (one_le_length_iff s').mp h1⟩
          · simp [parseStringField, h1] at h
      | null => simp [parseStringField] at h
      | bool b => simp [parseStringField] at h
      | num q => simp [parseStringField] at h
      | arr xs => simp [parseStringField] at h
      | obj fs => simp [parseStringField] at h

theorem parseCategory_nil_iff (v : Option Json) :
    (parseCategory v).1 = [] ↔ ∃ s, v = some (Json.str s) ∧ s ∈ categoryValues := by
  cases v with
  | none => simp [parseCategory]
  | some j =>
      cases j with
      | str s => by_cases h : s ∈ categoryValues <;> simp [parseCategory, h]
      | null => simp [parseCategory]
      | bool b => simp [parseCategory]
      | num q => simp [parseCategory]
      | arr xs => simp [parseCategory]
      | obj fs => simp [parseCategory]

theorem parseCategory_isSome_iff (v : Option Json) :
    (parseCategory v).2.isSome ↔ (parseCategory v).1 = [] := by
  cases v with
  | none => simp [parseCategory]
  | some j =>
      cases j with
      | str s => by_cases h : s ∈ categoryValues <;> simp [parseCategory, h]
      | null => simp [parseCategory]
      | bool b => simp [parseCategory]
      | num q => simp [parseCategory]
      | arr xs => simp [parseCategory]
      | obj fs => simp [parseCategory]

theorem parseCategory_path (v : Option Json) :
    ∀ e ∈ (parseCategory v).1, e.path = ["category"] := by
  cases v with
  | none => simp [parseCategory]
  | some j =>
      cases j with
      | str s => by_cases h : s ∈ categoryValues <;> simp [parseCategory, h]
      | null => simp [parseCategory]
      | bool b => simp [parseCategory]
      | num q => simp [parseCategory]
      | arr xs => simp [parseCategory]
      | obj fs => simp [parseCategory]

theorem parseCategory_some (v : Option Json) (s : String)
    (h : (parseCategory v).2 = some s) :
    v = some (Json.str s) ∧ s ∈ categoryValues := by
  cases v with
  | none => simp [parseCategory] at h
  | some j =>
      cases j with
      | str s' =>
          by_cases h1 : s' ∈ categoryValues
          · simp [parseCategory, h1] at h
            exact ⟨by rw [h], h ▸ h1⟩
          · simp [parseCategory, h1] at h
      | null => simp [parseCategory] at h
      | bool b => simp [parseCategory] at h
      | num q => simp [parseCategory] at h
      | arr xs => simp [parseCategory] at h
      | obj fs => simp [parseCategory] at h

theorem parseUrlField_nil_iff (n m : String) (v : Option Json) :
    (parseUrlField n m v).1 = [] ↔
      ∃ s, v = some (Json.str s) ∧ s ≠ "" ∧ isValidUrl s = true := by
  cases v with
  | none => simp [parseUrlField]
  | some j =>
      cases j with
      | str s =>
          by_cases hu : isValidUrl s
          · by_cases h : 1 ≤ s.length
            · simp [parseUrlField, hu, h, (one_le_length_iff s).mp h]
            · have hs : s = "" := not_not.mp (fun hne => h ((one_le_length_iff s).mpr hne))
              simp [parseUrlField, hu, h, hs]
          · by_cases h : 1 ≤ s.length <;> simp [parseUrlField, hu, h]
      | null => simp [parseUrlField]
      | bool b => simp [parseUrlField]
      | num q => simp [parseUrlField]
      | arr xs => simp [parseUrlField]
      | obj fs => simp [parseUrlField]

theorem parseUrlField_isSome_iff (n m : String) (v : Option Json) :
    (parseUrlField n m v).2.isSome ↔ (parseUrlField n m v).1 = [] := by
  cases v with
  | none => simp [parseUrlField]
  | some j =>
      cases j with
      | str s =>
          by_cases hu : isValidUrl s <;> by_cases h : 1 ≤ s.length <;>
            simp [parseUrlField, hu, h]
      | null => simp [parseUrlField]
      | bool b => simp [parseUrlField]
      | num q => simp [parseUrlField]
      | arr xs => simp [parseUrlField]
      | obj fs => simp [parseUrlField]

theorem parseUrlField_path (n m : String) (v : Option Json) :
    ∀ e ∈ (parseUrlField n m v).1, e.path = [n] := by
  cases v with
  | none => simp [parseUrlField]
  | some j =>
      cases j with
      | str s =>
          by_cases hu : isValidUrl s <;> by_cases h : 1 ≤ s.length <;>
            simp [parseUrlField, hu, h]
      | null => simp [parseUrlField]
      | bool b => simp [parseUrlField]
      | num q => simp [parseUrlField]
      | arr xs => simp [parseUrlField]
      | obj fs => simp [parseUrlField]

theorem parseUrlField_some (n m : String) (v : Option Json) (s : String)
    (h : (parseUrlField n m v).2 = some s) :
    v = some (Json.str s) ∧ s ≠ "" ∧ isValidUrl s = true := by
  cases v with
  | none => simp [parseUrlField] at h
  | some j =>
      cases j with
      | str s' =>
          by_cases hu : isValidUrl s'
          · by_cases h1 : 1 ≤ s'.length
            · simp [parseUrlField, hu, h1] at h
              exact ⟨by rw [h], h ▸ (one_le_length_iff s').mp h1, h ▸ hu⟩
            · simp [parseUrlField, hu, h1] at h
          · by_cases h1 : 1 ≤ s'.length <;> simp [parseUrlField, hu, h1] at h
      | null => simp [parseUrlField] at h
      | bool b => simp [parseUrlField] at h
      | num q => simp [parseUrlField] at h
      | arr xs => simp [parseUrlField] at h
      | obj fs => simp [parseUrlField] at h

theorem parseNumberField_nil_iff (n m : String) (v : Option Json) :
    (parseNumberField n m v).1 = [] ↔ ∃ q, v = some (Json.num q) ∧ 1 ≤ q := by
  cases v with
  | none => simp [parseNumberField]
  | some j =>
      cases j with
      | num q => by_cases h : (1 : ℚ) ≤ q <;> simp [parseNumberField, h]
      | null => simp [parseNumberField]
      | bool b => simp [parseNumberField]
      | str s => simp [parseNumberField]
      | arr xs => simp [parseNumberField]
      | obj fs => simp [parseNumberField]

theorem parseNumberField_isSome_iff (n m : String) (v : Option Json) :
    (parseNumberField n m v).2.isSome ↔ (parseNumberField n m v).1 = [] := by
  cases v with
  | none => simp [parseNumberField]
  | some j =>
      cases j with
      | num q => by_cases h : (1 : ℚ) ≤ q <;> simp [parseNumberField, h]
      | null => simp [parseNumberField]
      | bool b => simp [parseNumberField]
      | str s => simp [parseNumberField]
      | arr xs => simp [parseNumberField]
      | obj fs => simp [parseNumberField]

theorem parseNumberField_path (n m : String) (v : Option Json) :
    ∀ e ∈ (parseNumberField n m v).1, e.path = [n] := by
  cases v with
  | none => simp [parseNumberField]
  | some j =>
      cases j with
      | num q => by_cases h : (1 : ℚ) ≤ q <;> simp [parseNumberField, h]
      | null => simp [parseNumberField]
      | bool b => simp [parseNumberField]
      | str s => simp [parseNumberField]
      | arr xs => simp [parseNumberField]
      | obj fs => simp [parseNumberField]

theorem parseNumberField_some (n m : String) (v : Option Json) (q : ℚ)
    (h : (parseNumberField n m v).2 = some q) :
    v = some (Json.num q) ∧ 1 ≤ q := by
  cases v with
  | none => simp [parseNumberField] at h
  | some j =>
      cases j with
      | num q' =>
          by_cases h1 : (1 : ℚ) ≤ q'
          · simp [parseNumberField, h1] at h
            exact ⟨by rw [h], h ▸ h1⟩
          · simp [parseNumberField, h1] at h
      | null => simp [parseNumberField] at h
      | bool b => simp [parseNumberField] at h
      | str s => simp [parseNumberField] at h
      | arr xs => simp [parseNumberField] at h
      | obj fs => simp [parseNumberField] at h

/-! ## safeParse structure lemmas -/

set_option maxHeartbeats 1000000 in
theorem safeParse_obj_ok_iff (fs : List (String × Json)) :
    (∃ p, productSchema.safeParse (.obj fs) = .ok p) ↔
      ((titleResult fs).2.isSome ∧ (descriptionResult fs).2.isSome ∧
       (categoryResult fs).2.isSome ∧ (imageUrlResult fs).2.isSome ∧
       (priceResult fs).2.isSome ∧ (creatorResult fs).2.isSome) := by
  unfold productSchema.safeParse
  cases ht : (titleResult fs).2 <;> cases hd : (descriptionResult fs).2 <;>
    cases hc : (categoryResult fs).2 <;> cases hu : (imageUrlResult fs).2 <;>
    cases hq : (priceResult fs).2 <;> cases hcr : (creatorResult fs).2 <;>
    simp only [ht, hd, hc, hu, hq, hcr] <;> simp

set_option maxHeartbeats 1000000 in
theorem safeParse_obj_error_eq (fs : List (String × Json)) (es : List Issue)
    (h : productSchema.safeParse (.obj fs) = .error es) :
    es = productIssues fs := by
  unfold productSchema.safeParse at h
  cases ht : (titleResult fs).2 <;> cases hd : (descriptionResult fs).2 <;>
    cases hc : (categoryResult fs).2 <;> cases hu : (imageUrlResult fs).2 <;>
    cases hq : (priceResult fs).2 <;> cases hcr : (creatorResult fs).2 <;>
    simp only [ht, hd, hc, hu, hq, hcr] at h <;> simp at h <;> exact h.symm

set_option maxHeartbeats 1000000 in
theorem safeParse_ok_fields (fs : List (String × Json)) (p : Product)
    (h : productSchema.safeParse (.obj fs) = .ok p) :
    (titleResult fs).2 = some p.title ∧
    (descriptionResult fs).2 = some p.description ∧
    (categoryResult fs).2 = some p.category ∧
    (imageUrlResult fs).2 = some p.imageUrl ∧
    (priceResult fs).2 = some p.price ∧
    (creatorResult fs).2 = some p.creator := by
  unfold productSchema.safeParse at h
  cases ht : (titleResult fs).2 <;> cases hd : (descriptionResult fs).2 <;>
    cases hc : (categoryResult fs).2 <;> cases hu : (imageUrlResult fs).2 <;>
    cases hq : (priceResult fs).2 <;> cases hcr : (creatorResult fs).2 <;>
    simp only [ht, hd, hc, hu, hq, hcr] at h <;> simp at h <;>
    (subst h; simp [ht, hd, hc, hu, hq, hcr])

theorem safeParse_not_obj_error (j : Json) (h : ∀ fs, j ≠ .obj fs) :
    productSchema.safeParse j = .error [⟨[], "Expected object"⟩] := by
  cases j with
  | obj fs => exact absurd rfl (h fs)
  | null => rfl
  | bool b => rfl
  | num q => rfl
  | str s => rfl
  | arr xs => rfl

theorem safeParse_ok_iff_claimAccepts (j : Json) :
    (∃ p, productSchema.safeParse j = .ok p) ↔ claimAccepts j := by
  cases j with
  | obj fs =>
      rw [safeParse_obj_ok_iff]
      unfold claimAccepts titleOk descriptionOk categoryOk imageUrlOk priceOk creatorOk
      simp only [Json.field?]
      refine and_congr ?_ (and_congr ?_ (and_congr ?_ (and_congr ?_ (and_congr ?_ ?_))))
      · exact (parseStringField_isSome_iff _ _ _).trans (parseStringField_nil_iff _ _ _)
      · exact (parseStringField_isSome_iff _ _ _).trans (parseStringField_nil_iff _ _ _)
      · exact (parseCategory_isSome_iff _).trans (parseCategory_nil_iff _)
      · exact (parseUrlField_isSome_iff _ _ _).trans (parseUrlField_nil_iff _ _ _)
      · exact (parseNumberField_isSome_iff _ _ _).trans (parseNumberField_nil_iff _ _ _)
      · exact (parseStringField_isSome_iff _ _ _).trans (parseStringField_nil_iff _ _ _)
  | null => simp [productSchema.safeParse, claimAccepts, titleOk, Json.field?]
  | bool b => simp [productSchema.safeParse, claimAccepts, titleOk, Json.field?]
  | num q => simp [productSchema.safeParse, claimAccepts, titleOk, Json.field?]
  | str s => simp [productSchema.safeParse, claimAccepts, titleOk, Json.field?]
  | arr xs => simp [productSchema.safeParse, claimAccepts, titleOk, Json.field?]

theorem safeParse_ok_validProduct (j : Json) (p : Product)
    (h : productSchema.safeParse j = .ok p) : validProduct p := by
  cases j with
  | obj fs =>
      obtain ⟨h1, h2, h3, h4, h5, h6⟩ := safeParse_ok_fields fs p h
      obtain ⟨-, ht⟩ := parseStringField_some _ _ _ _ h1
      obtain ⟨-, hd⟩ := parseStringField_some _ _ _ _ h2
      obtain ⟨-, hc⟩ := parseCategory_some _ _ h3
      obtain ⟨-, hu1, hu2⟩ := parseUrlField_some _ _ _ _ h4
      obtain ⟨-, hq⟩ := parseNumberField_some _ _ _ _ h5
      obtain ⟨-, hcr⟩ := parseStringField_some _ _ _ _ h6
      exact ⟨ht, hd, hc, hu1, hu2, hq, hcr⟩
  | null => simp [productSchema.safeParse] at h
  | bool b => simp [productSchema.safeParse] at h
  | num q => simp [productSchema.safeParse] at h
  | str s => simp [productSchema.safeParse] at h
  | arr xs => simp [productSchema.safeParse] at h

/-! ## Which fields the collected issues name -/

theorem seg_exists_iff {l : List Issue} {n : String}
    (h : ∀ e ∈ l, e.path = [n]) : (∃ e ∈ l, e.path = [n]) ↔ l ≠ [] := by
  cases l with
  | nil => simp
  | cons a t =>
      apply iff_of_true
      · exact ⟨a, List.mem_cons_self a t, h a (List.mem_cons_self a t)⟩
      · simp

theorem seg_not_exists {l : List Issue} {n n' : String}
    (h : ∀ e ∈ l, e.path = [n]) (hne : n ≠ n') :
    ¬ ∃ e ∈ l, e.path = [n'] := by
  rintro ⟨e, he, hp⟩
  rw [h e he] at hp
  exact hne (by injection hp)

theorem productIssues_mem_cases (fs : List (String × Json)) (e : Issue)
    (he : e ∈ productIssues fs) :
    e ∈ (titleResult fs).1 ∨ e ∈ (descriptionResult fs).1 ∨
    e ∈ (categoryResult fs).1 ∨ e ∈ (imageUrlResult fs).1 ∨
    e ∈ (priceResult fs).1 ∨ e ∈ (creatorResult fs).1 := by
  simp only [productIssues, List.mem_append] at he
  tauto

theorem productIssues_exists_iff (fs : List (String × Json)) (n : String)
    {l : List Issue} (hl : l = (titleResult fs).1 ∨ l = (descriptionResult fs).1 ∨
      l = (categoryResult fs).1 ∨ l = (imageUrlResult fs).1 ∨
      l = (priceResult fs).1 ∨ l = (creatorResult fs).1)
    (hpath : ∀ e ∈ l, e.path = [n])
    (hothers : ∀ e ∈ productIssues fs, e.path = [n] → e ∈ l) :
    (∃ e ∈ productIssues fs, e.path = [n]) ↔ l ≠ [] := by
  constructor
  · rintro ⟨e, he, hp⟩
    exact List.ne_nil_of_mem (hothers e he hp)
  · intro hne
    obtain ⟨e, he⟩ := List.exists_mem_of_ne_nil _ hne
    refine ⟨e, ?_, hpath e he⟩
    simp only [productIssues, List.mem_append]
    rcases hl with h | h | h | h | h | h <;> subst h <;> tauto

theorem productIssues_title_iff (fs : List (String × Json)) :
    (∃ e ∈ productIssues fs, e.path = ["title"]) ↔ (titleResult fs).1 ≠ [] := by
  refine productIssues_exists_iff fs "title" (Or.inl rfl) (parseStringField_path "title" "Title is required" (fs.lookup "title")) ?_
  intro e he hp
  rcases productIssues_mem_cases fs e he with h | h | h | h | h | h
  · exact h
  · rw [parseStringField_path "description" "Description is required" (fs.lookup "description") e h] at hp
    exact absurd hp (by decide)
  · rw [parseCategory_path (fs.lookup "category") e h] at hp
    exact absurd hp (by decide)
  · rw [parseUrlField_path "imageUrl" "Image URL is required" (fs.lookup "imageUrl") e h] at hp
    exact absurd hp (by decide)
  · rw [parseNumberField_path "price" "Price is required" (fs.lookup "price") e h] at hp
    exact absurd hp (by decide)
  · rw [parseStringField_path "creator" "Creator is required" (fs.lookup "creator") e h] at hp
    exact absurd hp (by decide)

theorem productIssues_description_iff (fs : List (String × Json)) :
    (∃ e ∈ productIssues fs, e.path = ["description"]) ↔ (descriptionResult fs).1 ≠ [] := by
  refine productIssues_exists_iff fs "description" (Or.inr (Or.inl rfl)) (parseStringField_path "description" "Description is required" (fs.lookup "description")) ?_
  intro e he hp
  rcases productIssues_mem_cases fs e he with h | h | h | h | h | h
  · rw [parseStringField_path "title" "Title is required" (fs.lookup "title") e h] at hp
    exact absurd hp (by decide)
  · exact h
  · rw [parseCategory_path (fs.lookup "category") e h] at hp
    exact absurd hp (by decide)
  · rw [parseUrlField_path "imageUrl" "Image URL is required" (fs.lookup "imageUrl") e h] at hp
    exact absurd hp (by decide)
  · rw [parseNumberField_path "price" "Price is required" (fs.lookup "price") e h] at hp
    exact absurd hp (by decide)
  · rw [parseStringField_path "creator" "Creator is required" (fs.lookup "creator") e h] at hp
    exact absurd hp (by decide)

theorem productIssues_category_iff (fs : List (String × Json)) :
    (∃ e ∈ productIssues fs, e.path = ["category"]) ↔ (categoryResult fs).1 ≠ [] := by
  refine productIssues_exists_iff fs "category" (Or.inr (Or.inr (Or.inl rfl))) (parseCategory_path (fs.lookup "category")) ?_
  intro e he hp
  rcases productIssues_mem_cases fs e he with h | h | h | h | h | h
  · rw [parseStringField_path "title" "Title is required" (fs.lookup "title") e h] at hp
    exact absurd hp (by decide)
  · rw [parseStringField_path "description" "Description is required" (fs.lookup "description") e h] at hp
    exact absurd hp (by decide)
  · exact h
  · rw [parseUrlField_path "imageUrl" "Image URL is required" (fs.lookup "imageUrl") e h] at hp
    exact absurd hp (by decide)
  · rw [parseNumberField_path "price" "Price is required" (fs.lookup "price") e h] at hp
    exact absurd hp (by decide)
  · rw [parseStringField_path "creator" "Creator is required" (fs.lookup "creator") e h] at hp
    exact absurd hp (by decide)

theorem productIssues_imageUrl_iff (fs : List (String × Json)) :
    (∃ e ∈ productIssues fs, e.path = ["imageUrl"]) ↔ (imageUrlResult fs).1 ≠ [] := by
  refine productIssues_exists_iff fs "imageUrl" (Or.inr (Or.inr (Or.inr (Or.inl rfl)))) (parseUrlField_path "imageUrl" "Image URL is required" (fs.lookup "imageUrl")) ?_
  intro e he hp
  rcases productIssues_mem_cases fs e he with h | h | h | h | h | h
  · rw [parseStringField_path "title" "Title is required" (fs.lookup "title") e h] at hp
    exact absurd hp (by decide)
  · rw [parseStringField_path "description" "Description is required" (fs.lookup "description") e h] at hp
    exact absurd hp (by decide)
  · rw [parseCategory_path (fs.lookup "category") e h] at hp
    exact absurd hp (by decide)
  · exact h
  · rw [parseNumberField_path "price" "Price is required" (fs.lookup "price") e h] at hp
    exact absurd hp (by decide)
  · rw [parseStringField_path "creator" "Creator is required" (fs.lookup "creator") e h] at hp
    exact absurd hp (by decide)

theorem productIssues_price_iff (fs : List (String × Json)) :
    (∃ e ∈ productIssues fs, e.path = ["price"]) ↔ (priceResult fs).1 ≠ [] := by
  refine productIssues_exists_iff fs "price" (Or.inr (Or.inr (Or.inr (Or.inr (Or.inl rfl))))) (parseNumberField_path "price" "Price is required" (fs.lookup "price")) ?_
  intro e he hp
  rcases productIssues_mem_cases fs e he with h | h | h | h | h | h
  · rw [parseStringField_path "title" "Title is required" (fs.lookup "title") e h] at hp
    exact absurd hp (by decide)
  · rw [parseStringField_path "description" "Description is required" (fs.lookup "description") e h] at hp
    exact absurd hp (by decide)
  · rw [parseCategory_path (fs.lookup "category") e h] at hp
    exact absurd hp (by decide)
  · rw [parseUrlField_path "imageUrl" "Image URL is required" (fs.lookup "imageUrl") e h] at hp
    exact absurd hp (by decide)
  · exact h
  · rw [parseStringField_path "creator" "Creator is required" (fs.lookup "creator") e h] at hp
    exact absurd hp (by decide)

theorem productIssues_creator_iff (fs : List (String × Json)) :
    (∃ e ∈ productIssues fs, e.path = ["creator"]) ↔ (creatorResult fs).1 ≠ [] := by
  refine productIssues_exists_iff fs "creator" (Or.inr (Or.inr (Or.inr (Or.inr (Or.inr rfl))))) (parseStringField_path "creator" "Creator is required" (fs.lookup "creator")) ?_
  intro e he hp
  rcases productIssues_mem_cases fs e he with h | h | h | h | h | h
  · rw [parseStringField_path "title" "Title is required" (fs.lookup "title") e h] at hp
    exact absurd hp (by decide)
  · rw [parseStringField_path "description" "Description is required" (fs.lookup "description") e h] at hp
    exact absurd hp (by decide)
  · rw [parseCategory_path (fs.lookup "category") e h] at hp
    exact absurd hp (by decide)
  · rw [parseUrlField_path "imageUrl" "Image URL is required" (fs.lookup "imageUrl") e h] at hp
    exact absurd hp (by decide)
  · rw [parseNumberField_path "price" "Price is required" (fs.lookup "price") e h] at hp
    exact absurd hp (by decide)
  · exact h

/-! ## Claim C1 -/

/-- C1 (counterexample): the Schema Validator does NOT return exactly one
FieldError per violating field. In this payload every field is valid except
`imageUrl`, which is the empty string — one violating field — yet the
validator returns TWO issues, both naming `imageUrl` (the URL-format check
and the min-length check each fail). -/
theorem C1_counterexample :
    productSchema.safeParse (Json.obj [("title", Json.str "t"),
      ("description", Json.str "d"), ("category", Json.str "electronics"),
      ("imageUrl", Json.str ""), ("price", Json.num 5),
      ("creator", Json.str "c")]) =
    .error [⟨["imageUrl"], "Invalid url"⟩,
            ⟨["imageUrl"], "Image URL is required"⟩] := by rfl

/-- C1 (amended): the Schema Validator accepts a payload exactly when title,
description and creator are non-empty strings, category is one of the four
enum values, imageUrl is a non-empty string that parses as a URL and price is
a number at least 1; on rejection of an object payload, the returned issues
name a field if and only if that field violates its rule (so every violating
field is named and only violating fields are named), but a field may receive
MORE THAN ONE FieldError when it violates several of its rules (e.g. an
empty `imageUrl`). -/
theorem C1_schema_validator_amended (j : Json) :
    ((∃ p, productSchema.safeParse j = .ok p) ↔ claimAccepts j) ∧
    (∀ fs es, j = Json.obj fs → productSchema.safeParse j = .error es →
      (((∃ e ∈ es, e.path = ["title"]) ↔ ¬ titleOk j) ∧
       ((∃ e ∈ es, e.path = ["description"]) ↔ ¬ descriptionOk j) ∧
       ((∃ e ∈ es, e.path = ["category"]) ↔ ¬ categoryOk j) ∧
       ((∃ e ∈ es, e.path = ["imageUrl"]) ↔ ¬ imageUrlOk j) ∧
       ((∃ e ∈ es, e.path = ["price"]) ↔ ¬ priceOk j) ∧
       ((∃ e ∈ es, e.path = ["creator"]) ↔ ¬ creatorOk j))) := by
  constructor
  · exact safeParse_ok_iff_claimAccepts j
  · rintro fs es rfl herr
    have hes := safeParse_obj_error_eq fs es herr
    subst hes
    refine ⟨?_, ?_, ?_, ?_, ?_, ?_⟩
    · exact (productIssues_title_iff fs).trans
        (not_congr (parseStringField_nil_iff "title" "Title is required" (fs.lookup "title")))
    · exact (productIssues_description_iff fs).trans
        (not_congr (parseStringField_nil_iff "description" "Description is required" (fs.lookup "description")))
    · exact (productIssues_category_iff fs).trans
        (not_congr (parseCategory_nil_iff (fs.lookup "category")))
    · exact (productIssues_imageUrl_iff fs).trans
        (not_congr (parseUrlField_nil_iff "imageUrl" "Image URL is required" (fs.lookup "imageUrl")))
    · exact (productIssues_price_iff fs).trans
        (not_congr (parseNumberField_nil_iff "price" "Price is required" (fs.lookup "price")))
    · exact (productIssues_creator_iff fs).trans
        (not_congr (parseStringField_nil_iff "creator" "Creator is required" (fs.lookup "creator")))

/-- C1 witness: the amended theorem applied at a concrete rejected payload
(valid except for an empty `imageUrl`): the issue list names `imageUrl`
exactly because the `imageUrl` rule is violated there. -/
theorem C1_schema_validator_amended_witness :
    (∃ e ∈ ([⟨["imageUrl"], "Invalid url"⟩,
             ⟨["imageUrl"], "Image URL is required"⟩] : List Issue),
        e.path = ["imageUrl"]) ↔
      ¬ imageUrlOk (Json.obj [("title", Json.str "t"),
        ("description", Json.str "d"), ("category", Json.str "electronics"),
        ("imageUrl", Json.str ""), ("price", Json.num 5),
        ("creator", Json.str "c")]) :=
  ((C1_schema_validator_amended (Json.obj [("title", Json.str "t"),
      ("description", Json.str "d"), ("category", Json.str "electronics"),
      ("imageUrl", Json.str ""), ("price", Json.num 5),
      ("creator", Json.str "c")])).2
    [("title", Json.str "t"), ("description", Json.str "d"),
     ("category", Json.str "electronics"), ("imageUrl", Json.str ""),
     ("price", Json.num 5), ("creator", Json.str "c")]
    [⟨["imageUrl"], "Invalid url"⟩, ⟨["imageUrl"], "Image URL is required"⟩]
    rfl (by rfl)).2.2.2.1

/-! ## Claim C2 -/

/-- C2: the filter-by-creator endpoint returns 400 (with no database work at
all) when the `creator` parameter is present but empty; returns 200 with the
full unfiltered list when the parameter is absent; returns 200 with exactly
the products whose creator equals a non-empty `c` when given one; and
returns the generic 500 when the connection or the store fails. -/
theorem C2_dashboard_filter (w : World) (c : String) :
    (dashboardGET w (some "") =
      (⟨400, Json.obj [("error", Json.str "Creator is required")]⟩, [])) ∧
    (w.connectOk = true → w.storeOk = true →
      dashboardGET w none =
        (⟨200, productsJson (w.products.map Prod.snd)⟩,
         [Event.connect, Event.findAll none])) ∧
    (c ≠ "" → w.connectOk = true → w.storeOk = true →
      dashboardGET w (some c) =
        (⟨200, productsJson ((w.products.map Prod.snd).filter
            (fun p => p.creator == c))⟩,
         [Event.connect, Event.findAll (some c)])) ∧
    (c ≠ "" → (w.connectOk = false ∨ w.storeOk = false) →
      (dashboardGET w (some c)).1 =
        ⟨500, Json.obj [("error", Json.str "Failed to fetch products")]⟩) := by
  obtain ⟨ps, cOk, sOk, err⟩ := w
  refine ⟨?_, ?_, ?_, ?_⟩
  · simp [dashboardGET]
  · intro h1 h2
    simp only at h1 h2
    subst h1; subst h2
    simp [dashboardGET]
  · intro hc h1 h2
    simp only at h1 h2
    subst h1; subst h2
    simp [dashboardGET, hc]
  · intro hc hbad
    cases cOk with
    | false => cases sOk <;> simp [dashboardGET, hc]
    | true =>
        cases sOk with
        | false => simp [dashboardGET, hc]
        | true => rcases hbad with h | h <;> exact absurd h (by simp)

/-- C2 witness: a concrete two-product store; filtering by `apple` returns
only the `apple` product, via the theorem applied at that input. -/
theorem C2_dashboard_filter_witness :
    dashboardGET
      ⟨[("aaaaaaaaaaaaaaaaaaaaaaaa",
          ⟨"iphone 20", "black iphone 16", "electronics",
           "https://example.com/i.png", 2000, "apple"⟩),
        ("bbbbbbbbbbbbbbbbbbbbbbbb",
          ⟨"galaxy", "a phone", "electronics",
           "https://example.com/g.png", 900, "samsung"⟩)],
       true, true, Json.null⟩ (some "apple") =
      (⟨200, productsJson (([("aaaaaaaaaaaaaaaaaaaaaaaa",
          (⟨"iphone 20", "black iphone 16", "electronics",
           "https://example.com/i.png", 2000, "apple"⟩ : Product)),
        ("bbbbbbbbbbbbbbbbbbbbbbbb",
          ⟨"galaxy", "a phone", "electronics",
           "https://example.com/g.png", 900, "samsung"⟩)].map Prod.snd).filter
            (fun p => p.creator == "apple"))⟩,
       [Event.connect, Event.findAll (some "apple")]) :=
  (C2_dashboard_filter _ "apple").2.2.1 (by decide) rfl rfl

/-! ## Claim C3 -/

/-- C3 (counterexample): a GET with a malformed id on a healthy store does
return 400, but its effect trace contains the connection establishment —
`connectToDB()` runs before the identifier format check in the GET handler,
so a database round-trip (dialing the store) does occur. -/
theorem C3_counterexample :
    productGET ⟨[], true, true, Json.null⟩ "not-a-valid-id" =
      (⟨400, Json.obj [("error", Json.str "Invalid ID format")]⟩,
       [Event.connect]) ∧
    Event.connect ∈ (productGET ⟨[], true, true, Json.null⟩ "not-a-valid-id").2 := by
  exact ⟨rfl, by decide⟩

/-- C3 (amended): on a malformed id, no repository operation is ever
performed, and PUT indeed returns 400 with no database work at all (the id
check precedes its try block); but GET and DELETE establish the connection
BEFORE checking the id, so their 400 comes after a connect — and if
connecting fails they return 500, not 400. DELETE rejects an empty id with
400 before any database work. -/
theorem C3_id_before_io_amended (w : World) (id : String) (b : Option Json)
    (h : isValidId id = false) :
    (productPUT w id b =
      (⟨400, Json.obj [("error", Json.str "Invalid ID format")]⟩, [])) ∧
    (w.connectOk = true →
      productGET w id =
        (⟨400, Json.obj [("error", Json.str "Invalid ID format")]⟩,
         [Event.connect])) ∧
    (w.connectOk = false → (productGET w id).1.status = 500) ∧
    (id ≠ "" → w.connectOk = true →
      productDELETE w id =
        (⟨400, Json.obj [("error", Json.str "Invalid ID format")]⟩,
         [Event.connect])) ∧
    (id ≠ "" → w.connectOk = false → (productDELETE w id).1.status = 500) ∧
    (productDELETE w "" =
      (⟨400, Json.obj [("error", Json.str "ID is required")]⟩, [])) := by
  obtain ⟨ps, cOk, sOk, err⟩ := w
  refine ⟨?_, ?_, ?_, ?_, ?_, ?_⟩
  · simp [productPUT, h]
  · intro h1
    simp only at h1
    subst h1
    simp [productGET, h]
  · intro h1
    simp only at h1
    subst h1
    simp [productGET]
  · intro hne h1
    simp only at h1
    subst h1
    simp [productDELETE, hne, h]
  · intro hne h1
    simp only at h1
    subst h1
    simp [productDELETE, hne]
  · simp [productDELETE]

/-- C3 witness: the amended theorem applied at a malformed id and a healthy
store: PUT does no database work, and GET's trace is exactly the connect. -/
theorem C3_id_before_io_amended_witness :
    productPUT ⟨[], true, true, Json.null⟩ "zzz" none =
      (⟨400, Json.obj [("error", Json.str "Invalid ID format")]⟩, []) ∧
    productGET ⟨[], true, true, Json.null⟩ "zzz" =
      (⟨400, Json.obj [("error", Json.str "Invalid ID format")]⟩,
       [Event.connect]) :=
  ⟨(C3_id_before_io_amended ⟨[], true, true, Json.null⟩ "zzz" none (by decide)).1,
   (C3_id_before_io_amended ⟨[], true, true, Json.null⟩ "zzz" none (by decide)).2.1 rfl⟩

/-! ## Claim C4 -/

/-- C4: a PUT whose id is malformed returns 400 with an empty effect trace —
the body is never parsed (no `parseBody` event) — and the response is
identical for any two bodies, including an unparseable one. -/
theorem C4_put_ignores_body (w : World) (id : String) (b b1 b2 : Option Json)
    (h : isValidId id = false) :
    productPUT w id b =
      (⟨400, Json.obj [("error", Json.str "Invalid ID format")]⟩, []) ∧
    Event.parseBody ∉ (productPUT w id b).2 ∧
    productPUT w id b1 = productPUT w id b2 := by
  refine ⟨?_, ?_, ?_⟩
  · simp [productPUT, h]
  · simp [productPUT, h]
  · simp [productPUT, h]

/-- C4 witness: a malformed-id PUT with a JSON body and one with an
unparseable body produce the same 400 response and never parse the body. -/
theorem C4_put_ignores_body_witness :
    productPUT ⟨[], true, true, Json.null⟩ "12345" (some (Json.str "x")) =
      productPUT ⟨[], true, true, Json.null⟩ "12345" none ∧
    Event.parseBody ∉
      (productPUT ⟨[], true, true, Json.null⟩ "12345" (some (Json.str "x"))).2 :=
  ⟨(C4_put_ignores_body ⟨[], true, true, Json.null⟩ "12345" none
      (some (Json.str "x")) none (by decide)).2.2,
   (C4_put_ignores_body ⟨[], true, true, Json.null⟩ "12345"
      (some (Json.str "x")) none none (by decide)).2.1⟩

/-! ## Claim C5 -/

/-- C5: no create or update reaches the store without the body first passing
the Schema Validator: any `saveProduct` event in a POST trace and any
`updateById` event in a PUT trace carries a payload satisfying every rule of
the validator at the moment of write. -/
theorem C5_validated_before_persist (w : World) (b : Option Json) (id : String)
    (p : Product) :
    (Event.saveProduct p ∈ (productsPOST w b).2 → validProduct p) ∧
    (Event.updateById id p ∈ (productPUT w id b).2 → validProduct p) := by
  constructor
  · intro hmem
    cases b with
    | none => simp [productsPOST] at hmem
    | some j =>
        cases hp : productSchema.safeParse j with
        | error es => simp [productsPOST, hp] at hmem
        | ok p' =>
            cases hcOk : w.connectOk with
            | false => simp [productsPOST, hp, hcOk] at hmem
            | true =>
                cases hsOk : w.storeOk with
                | false =>
                    simp [productsPOST, hp, hcOk, hsOk] at hmem
                    subst hmem
                    exact safeParse_ok_validProduct j _ hp
                | true =>
                    simp [productsPOST, hp, hcOk, hsOk] at hmem
                    subst hmem
                    exact safeParse_ok_validProduct j _ hp
  · intro hmem
    cases hid : isValidId id with
    | false => simp [productPUT, hid] at hmem
    | true =>
        cases b with
        | none => simp [productPUT, hid] at hmem
        | some j =>
            cases hp : productSchema.safeParse j with
            | error es => simp [productPUT, hid, hp] at hmem
            | ok p' =>
                cases hcOk : w.connectOk with
                | false => simp [productPUT, hid, hp, hcOk] at hmem
                | true =>
                    cases hsOk : w.storeOk with
                    | false =>
                        simp [productPUT, hid, hp, hcOk, hsOk] at hmem
                        subst hmem
                        exact safeParse_ok_validProduct j _ hp
                    | true =>
                        cases hml : w.products.lookup id with
                        | none =>
                            simp [productPUT, hid, hp, hcOk, hsOk, hml] at hmem
                            subst hmem
                            exact safeParse_ok_validProduct j _ hp
                        | some q =>
                            simp [productPUT, hid, hp, hcOk, hsOk, hml] at hmem
                            subst hmem
                            exact safeParse_ok_validProduct j _ hp

/-- C5 witness: a concrete successful POST persists a payload, and that
persisted payload satisfies every validator rule. -/
theorem C5_validated_before_persist_witness :
    validProduct ⟨"iphone 20", "black iphone 16", "electronics",
      "https://example.com/i.png", 2000, "apple"⟩ :=
  (C5_validated_before_persist ⟨[], true, true, Json.null⟩
    (some (Json.obj [("title", Json.str "iphone 20"),
      ("description", Json.str "black iphone 16"),
      ("category", Json.str "electronics"),
      ("imageUrl", Json.str "https://example.com/i.png"),
      ("price", Json.num 2000), ("creator", Json.str "apple")]))
    "cccccccccccccccccccccccc"
    ⟨"iphone 20", "black iphone 16", "electronics",
      "https://example.com/i.png", 2000, "apple"⟩).1 (by decide)

/-! ## Claim C6 -/

/-- C6 (counterexample): the list-all GET's 500 body does NOT carry only a
generic message: the caught store error is serialized into the response under
`details`, exposing the underlying error's detail to the caller. -/
theorem C6_counterexample :
    (listGET ⟨[], true, false,
        Json.str "MongoServerError: connection refused from internal-db:27017"⟩).1 =
      ⟨500, Json.obj [("error", Json.str "Failed to retrieve products"),
        ("details",
         Json.str "MongoServerError: connection refused from internal-db:27017")]⟩ := rfl

/-- C6 (amended): five of the six handlers return only a fixed generic
`{ error: ... }` object on 500; the exception is the list-all GET, whose 500
body additionally carries the caught error itself under `details` (the
driver's error on a store failure, the connect `Error` — which serializes to
`{}` — on a connection failure). -/
theorem C6_generic_500_amended (w : World) (id : String) (b : Option Json)
    (c : Option String) :
    ((productsPOST w b).1.status = 500 →
      (productsPOST w b).1.body =
        Json.obj [("error", Json.str "Failed to create product")]) ∧
    ((productGET w id).1.status = 500 →
      (productGET w id).1.body =
        Json.obj [("error", Json.str "Failed to fetch product")]) ∧
    ((productPUT w id b).1.status = 500 →
      (productPUT w id b).1.body =
        Json.obj [("error", Json.str "Internal server error")]) ∧
    ((productDELETE w id).1.status = 500 →
      (productDELETE w id).1.body =
        Json.obj [("error", Json.str "Internal server error")]) ∧
    ((dashboardGET w c).1.status = 500 →
      (dashboardGET w c).1.body =
        Json.obj [("error", Json.str "Failed to fetch products")]) ∧
    ((listGET w).1.status = 500 →
      (listGET w).1.body =
        Json.obj [("error", Json.str "Failed to retrieve products"),
          ("details", if w.connectOk then w.storeErr else Json.obj [])]) := by
  obtain ⟨ps, cOk, sOk, err⟩ := w
  refine ⟨?_, ?_, ?_, ?_, ?_, ?_⟩
  · cases b with
    | none => simp [productsPOST]
    | some j =>
        cases hp : productSchema.safeParse j with
        | error es => simp [productsPOST, hp]
        | ok p => cases cOk <;> cases sOk <;> simp [productsPOST, hp]
  · cases cOk <;> by_cases hid : isValidId id = true <;> cases sOk <;>
      cases hml : ps.lookup id <;> simp [productGET, hid, hml]
  · by_cases hid : isValidId id = true
    · cases b with
      | none => simp [productPUT, hid]
      | some j =>
          cases hp : productSchema.safeParse j with
          | error es => simp [productPUT, hid, hp]
          | ok p =>
              cases cOk <;> cases sOk <;> cases hml : ps.lookup id <;>
                simp [productPUT, hid, hp, hml]
    · simp [productPUT, hid]
  · by_cases hz : id = ""
    · simp [productDELETE, hz]
    · cases cOk <;> by_cases hid : isValidId id = true <;> cases sOk <;>
        cases hml : ps.lookup id <;> simp [productDELETE, hz, hid, hml]
  · by_cases hc : c = some ""
    · simp [dashboardGET, hc]
    · cases cOk <;> cases sOk <;> simp [dashboardGET, hc]
  · cases cOk <;> cases sOk <;> simp [listGET]

/-- C6 witness: a PUT against a store whose connection fails returns the
fixed generic 500 body, via the amended theorem at that input. -/
theorem C6_generic_500_amended_witness :
    (productPUT ⟨[], false, true, Json.null⟩ "aaaaaaaaaaaaaaaaaaaaaaaa"
        (some (Json.obj [("title", Json.str "t"),
          ("description", Json.str "d"), ("category", Json.str "men"),
          ("imageUrl", Json.str "https://example.com/p.png"),
          ("price", Json.num 10), ("creator", Json.str "c")]))).1.body =
      Json.obj [("error", Json.str "Internal server error")] :=
  (C6_generic_500_amended ⟨[], false, true, Json.null⟩ "aaaaaaaaaaaaaaaaaaaaaaaa"
    (some (Json.obj [("title", Json.str "t"),
      ("description", Json.str "d"), ("category", Json.str "men"),
      ("imageUrl", Json.str "https://example.com/p.png"),
      ("price", Json.num 10), ("creator", Json.str "c")])) none).2.2.1 (by rfl)

/-! ## Claim C7 -/

/-- C7 (counterexample): `connectToDB` called on an ALREADY-CONNECTED state
still performs a driver connect attempt (its trace is not empty), and a
sequence of two calls performs two connect attempts — not at most one. -/
theorem C7_counterexample :
    (connectToDB ⟨true⟩ true).2 = [Event.connect] ∧
    (connectToDB ⟨false⟩ true).2 ++ (connectToDB ⟨true⟩ true).2 =
      [Event.connect, Event.connect] :=
  ⟨rfl, rfl⟩

/-- C7 (amended): `connectToDB` contains no already-connected guard: EVERY
call, whatever the current connection state, performs exactly one driver
connect attempt, succeeding (connected state) when the driver succeeds and
throwing `Failed to connect to mongoDb` otherwise. Any idempotence is the
driver's, not this routine's. -/
theorem C7_connect_no_guard_amended (s : ConnState) (d : Bool) :
    (connectToDB s d).2 = [Event.connect] ∧
    (connectToDB s d).1 =
      (if d then Except.ok ⟨true⟩
       else Except.error "Failed to connect to mongoDb") :=
  ⟨rfl, rfl⟩

/-! ## Claim C8 -/

/-- The documented `{ "error": string }` envelope. -/
def isStringErrorEnvelope : Json → Bool
  | .obj [("error", .str _)] => true
  | _ => false

/-- One `{field, message}` item of the documented errors envelope. -/
def isFieldErrorItem : Json → Bool
  | .obj [("field", .str _), ("message", .str _)] => true
  | _ => false

/-- The documented `{ "errors": [{field, message}, ...] }` envelope. -/
def isFieldErrorsEnvelope : Json → Bool
  | .obj [("errors", .arr items)] => items.all isFieldErrorItem
  | _ => false

theorem productIssues_path_singleton (fs : List (String × Json)) :
    ∀ e ∈ productIssues fs, ∃ n, e.path = [n] := by
  intro e he
  rcases productIssues_mem_cases fs e he with h | h | h | h | h | h
  · exact ⟨_, parseStringField_path "title" "Title is required" (fs.lookup "title") e h⟩
  · exact ⟨_, parseStringField_path "description" "Description is required" (fs.lookup "description") e h⟩
  · exact ⟨_, parseCategory_path (fs.lookup "category") e h⟩
  · exact ⟨_, parseUrlField_path "imageUrl" "Image URL is required" (fs.lookup "imageUrl") e h⟩
  · exact ⟨_, parseNumberField_path "price" "Price is required" (fs.lookup "price") e h⟩
  · exact ⟨_, parseStringField_path "creator" "Creator is required" (fs.lookup "creator") e h⟩

/-- C8 (counterexample): two schema-validation 400 responses violate the
documented envelopes. A PUT that fails schema validation (valid id, empty
object body) returns 400 with body `{ error: [ ...issue objects... ] }` — an
ARRAY under the `error` key — which conforms to neither envelope. And a POST
whose body is parseable JSON but not an object (here the string `"x"`)
returns 400 with `{ errors: [ { message: ... } ] }` whose single item has NO
`field` key (the top-level issue's path is empty, so `issue.path[0]` is
`undefined` and `JSON.stringify` drops it), failing the
`{ errors: [{field, message}, ...] }` envelope as well. -/
theorem C8_counterexample :
    (productPUT ⟨[], true, true, Json.null⟩ "aaaaaaaaaaaaaaaaaaaaaaaa"
        (some (Json.obj []))).1.status = 400 ∧
    isStringErrorEnvelope
      (productPUT ⟨[], true, true, Json.null⟩ "aaaaaaaaaaaaaaaaaaaaaaaa"
        (some (Json.obj []))).1.body = false ∧
    isFieldErrorsEnvelope
      (productPUT ⟨[], true, true, Json.null⟩ "aaaaaaaaaaaaaaaaaaaaaaaa"
        (some (Json.obj []))).1.body = false ∧
    (productsPOST ⟨[], true, true, Json.null⟩ (some (Json.str "x"))).1 =
      ⟨400, Json.obj [("errors",
        Json.arr [Json.obj [("message", Json.str "Expected object")]])]⟩ ∧
    isFieldErrorsEnvelope
      (productsPOST ⟨[], true, true, Json.null⟩
        (some (Json.str "x"))).1.body = false := by
  refine ⟨rfl, rfl, rfl, rfl, rfl⟩

/-- C8 (amended): every schema-validation 400 body of POST is
`{ errors: [ ... ] }`, and for an OBJECT payload each item carries both
`field` and `message`, conforming to the documented errors envelope; for a
non-object payload the single item carries only a `message` (the top-level
issue's empty path makes `issue.path[0]` undefined, and the key is dropped),
so the body conforms to neither documented envelope. PUT's schema-validation
400 body is `{ error: <array of raw issue objects> }`, which conforms to
neither documented envelope for any payload. -/
theorem C8_envelope_amended (w : World) (j : Json) (id : String)
    (es : List Issue) (herr : productSchema.safeParse j = .error es) :
    ((productsPOST w (some j)).1.status = 400 ∧
     (productsPOST w (some j)).1.body =
       Json.obj [("errors", Json.arr (es.map fieldErrorJson))]) ∧
    (∀ fs, j = Json.obj fs →
      isFieldErrorsEnvelope (productsPOST w (some j)).1.body = true) ∧
    ((∀ fs, j ≠ Json.obj fs) →
      isFieldErrorsEnvelope (productsPOST w (some j)).1.body = false) ∧
    (isValidId id = true →
      (productPUT w id (some j)).1.status = 400 ∧
      (productPUT w id (some j)).1.body =
        Json.obj [("error", Json.arr (es.map issueJson))] ∧
      isFieldErrorsEnvelope (productPUT w id (some j)).1.body = false ∧
      isStringErrorEnvelope (productPUT w id (some j)).1.body = false) := by
  refine ⟨⟨by simp [productsPOST, herr], by simp [productsPOST, herr]⟩,
    ?_, ?_, ?_⟩
  · rintro fs rfl
    have hes := safeParse_obj_error_eq fs es herr
    simp only [productsPOST, herr]
    simp only [isFieldErrorsEnvelope, List.all_eq_true]
    intro x hx
    rw [List.mem_map] at hx
    obtain ⟨e, he, rfl⟩ := hx
    obtain ⟨n, hn⟩ := productIssues_path_singleton fs e (hes ▸ he)
    simp [fieldErrorJson, hn, isFieldErrorItem]
  · intro hne
    have h2 := safeParse_not_obj_error j hne
    rw [herr] at h2
    have hes : es = [⟨[], "Expected object"⟩] := by simpa using h2
    subst hes
    simp only [productsPOST, herr]
    rfl
  · intro hid
    refine ⟨by simp [productPUT, hid, herr], by simp [productPUT, hid, herr],
      ?_, ?_⟩
    · simp only [productPUT, hid, herr]
      rfl
    · simp only [productPUT, hid, herr]
      rfl

/-- C8 witness: the amended theorem applied concretely: at the empty-object
payload (all six `Required` issues, each naming its field) POST's 400 body
matches the documented errors envelope; at the non-object payload `"y"` it
does not; and PUT's never does. -/
theorem C8_envelope_amended_witness :
    isFieldErrorsEnvelope
      (productsPOST ⟨[], true, true, Json.null⟩
        (some (Json.obj []))).1.body = true ∧
    isFieldErrorsEnvelope
      (productsPOST ⟨[], true, true, Json.null⟩
        (some (Json.str "y"))).1.body = false ∧
    isFieldErrorsEnvelope
      (productPUT ⟨[], true, true, Json.null⟩ "bbbbbbbbbbbbbbbbbbbbbbbb"
        (some (Json.obj []))).1.body = false :=
  ⟨(C8_envelope_amended ⟨[], true, true, Json.null⟩ (Json.obj [])
      "bbbbbbbbbbbbbbbbbbbbbbbb"
      [⟨["title"], "Required"⟩, ⟨["description"], "Required"⟩,
       ⟨["category"], "Required"⟩, ⟨["imageUrl"], "Required"⟩,
       ⟨["price"], "Required"⟩, ⟨["creator"], "Required"⟩] rfl).2.1 [] rfl,
   (C8_envelope_amended ⟨[], true, true, Json.null⟩ (Json.str "y")
      "bbbbbbbbbbbbbbbbbbbbbbbb" [⟨[], "Expected object"⟩] rfl).2.2.1
     (fun fs h => Json.noConfusion h),
   ((C8_envelope_amended ⟨[], true, true, Json.null⟩ (Json.obj [])
      "bbbbbbbbbbbbbbbbbbbbbbbb"
      [⟨["title"], "Required"⟩, ⟨["description"], "Required"⟩,
       ⟨["category"], "Required"⟩, ⟨["imageUrl"], "Required"⟩,
       ⟨["price"], "Required"⟩, ⟨["creator"], "Required"⟩] rfl).2.2.2
     (by decide)).2.2.1⟩

/-! ## Claim C9 -/

/-- C9: the Identifier Validator (modelled from the spec's 24-character
hexadecimal format, since the actual check lives in the external mongoose
library) accepts a string exactly when it has length 24 and every character
is a hexadecimal digit; it is a pure Boolean function, and the handlers'
400-classification of an id does not depend on which documents exist in the
store. -/
theorem C9_identifier_validator (s : String) (w₁ w₂ : World) (id : String)
    (hconn : w₁.connectOk = w₂.connectOk) :
    (isValidId s = true ↔
      (s.length = 24 ∧ ∀ c ∈ s.data,
        (c.isDigit = true ∨ ('a' ≤ c ∧ c ≤ 'f') ∨ ('A' ≤ c ∧ c ≤ 'F')))) ∧
    ((productGET w₁ id).1.status = 400 ↔ (productGET w₂ id).1.status = 400) := by
  have key : ∀ w : World,
      (productGET w id).1.status = 400 ↔
        (w.connectOk = true ∧ isValidId id = false) := by
    intro w
    obtain ⟨ps, cOk, sOk, err⟩ := w
    cases cOk <;> cases hid : isValidId id <;> cases sOk <;>
      cases hml : ps.lookup id <;> simp [productGET, hid, hml]
  constructor
  · simp [isValidId, List.all_eq_true, Bool.and_eq_true, Bool.or_eq_true,
      beq_iff_eq, decide_eq_true_eq, or_assoc]
  · rw [key w₁, key w₂, hconn]

/-- C9 witness: with the same connection health, a world containing a
document under the id and a world containing none classify the id
identically (here: a valid-format id, so neither returns 400). -/
theorem C9_identifier_validator_witness :
    (productGET ⟨[("dddddddddddddddddddddddd",
        ⟨"t", "d", "men", "https://example.com/x.png", 3, "c"⟩)],
        true, true, Json.null⟩ "dddddddddddddddddddddddd").1.status = 400 ↔
    (productGET ⟨[], true, true, Json.null⟩
        "dddddddddddddddddddddddd").1.status = 400 :=
  (C9_identifier_validator "dddddddddddddddddddddddd"
    ⟨[("dddddddddddddddddddddddd",
        ⟨"t", "d", "men", "https://example.com/x.png", 3, "c"⟩)],
      true, true, Json.null⟩
    ⟨[], true, true, Json.null⟩ "dddddddddddddddddddddddd" rfl).2

/-! ## Claim C10 -/

/-- C10: a POST whose body is unparseable JSON (so `req.json()` throws) lands
in the generic catch and yields 500 with the generic object — not 400 — and
likewise a PUT with a well-formed id; the parse failure is never classified
as a validation error. -/
theorem C10_unparseable_body_500 (w : World) (id : String)
    (h : isValidId id = true) :
    productsPOST w none =
      (⟨500, Json.obj [("error", Json.str "Failed to create product")]⟩,
       [Event.parseBody]) ∧
    productPUT w id none =
      (⟨500, Json.obj [("error", Json.str "Internal server error")]⟩,
       [Event.parseBody]) := by
  constructor
  · rfl
  · simp [productPUT, h]

/-- C10 witness: the theorem at a concrete well-formed id. -/
theorem C10_unparseable_body_500_witness :
    productPUT ⟨[], true, true, Json.null⟩ "0123456789abcdefABCDEF01" none =
      (⟨500, Json.obj [("error", Json.str "Internal server error")]⟩,
       [Event.parseBody]) :=
  (C10_unparseable_body_500 ⟨[], true, true, Json.null⟩
    "0123456789abcdefABCDEF01" (by decide)).2
